import Mathlib

/-!
Verification of the scrape-orchestration core of the pricey repository.

The definitions below are shallow embeddings of the JavaScript sources:
* RetryHandler (retry-handler module): classifyError, shouldRetry, execute, calculateDelay
* BrowserManager (browser-manager module): getBrowserType, closeAll
* ProductScraper (scraper.js): scrapeProduct, _scrapeProductAttempt, _classifyError
* RetailerManager (retailer-manager.js): detectRetailer, extractDomain

JavaScript strings are Lean Strings; nullable values are Option; thrown
exceptions are Except errors; machine numbers that stay integral are Nat/Int,
and the jittered delay (the one place real arithmetic matters) is ℚ.
-/

/-- Scan for a pattern at every suffix of a character list. -/
def listIncludes (pat : List Char) : List Char → Bool
  | [] => pat.isEmpty
  | c :: rest => pat.isPrefixOf (c :: rest) || listIncludes pat rest

/-- JS String.prototype.includes: substring containment test. -/
def includes (s pat : String) : Bool :=
  listIncludes pat.toList s.toList

/-- JS String.prototype.toLowerCase (characterwise). -/
def toLowerCase (s : String) : String :=
  String.mk (s.toList.map Char.toLower)

/-- JS String.prototype.trim: strip leading and trailing whitespace. -/
def trimChars (s : List Char) : List Char :=
  ((s.dropWhile Char.isWhitespace).reverse.dropWhile Char.isWhitespace).reverse

deriving instance DecidableEq for Except

/-- Error taxonomy of RetryHandler.classifyError (eight kinds). -/
inductive ErrorKind where
  | network
  | rate_limit
  | server_error
  | bot_detection
  | navigation
  | parsing
  | client_error
  | unknown
deriving DecidableEq, Repr

/-- A raised JS Error as the classifier sees it: message plus stack
(error.stack may be absent, modelled as the empty string). -/
structure JsError where
  message : String
  stack : String
deriving DecidableEq, Repr

namespace RetryHandler

/-- RetryHandler.classifyError, translated branch for branch from the source:
lowercase message and stack, then test keyword sets in source order. -/
def classifyError (e : JsError) : ErrorKind :=
  let message := toLowerCase e.message
  let stack := toLowerCase e.stack
  if includes message "timeout" || includes message "network" ||
     includes message "connection" || includes message "econnreset" ||
     includes message "enotfound" then .network
  else if includes message "rate limit" || includes message "too many requests" ||
     includes message "429" then .rate_limit
  else if includes message "500" || includes message "502" ||
     includes message "503" || includes message "504" ||
     includes message "server error" then .server_error
  else if includes message "blocked" || includes message "access denied" ||
     includes message "403" || includes message "cloudflare" ||
     includes message "captcha" then .bot_detection
  else if includes message "navigation" || includes message "page.goto" ||
     includes message "net::" || includes stack "page.goto" then .navigation
  else if includes message "waiting for selector" || includes message "element not found" ||
     includes message "no element" then .parsing
  else if includes message "400" || includes message "401" ||
     includes message "404" || includes message "client error" then .client_error
  else .unknown

/-- Keyword sets per kind, as the spec describes them (spec side of the
refinement for C3); unknown has no keywords, it is the default. -/
def kindKeywords : ErrorKind → List String
  | .network => ["timeout", "network", "connection", "econnreset", "enotfound"]
  | .rate_limit => ["rate limit", "too many requests", "429"]
  | .server_error => ["500", "502", "503", "504", "server error"]
  | .bot_detection => ["blocked", "access denied", "403", "cloudflare", "captcha"]
  | .navigation => ["navigation", "page.goto", "net::"]
  | .parsing => ["waiting for selector", "element not found", "no element"]
  | .client_error => ["400", "401", "404", "client error"]
  | .unknown => []

/-- A kind matches a (lowercased) message/stack pair when one of its keywords
occurs in the message; navigation additionally matches on the stack. -/
def kindMatches (k : ErrorKind) (message stack : String) : Bool :=
  (kindKeywords k).any (fun w => includes message w) ||
    (match k with
     | .navigation => includes stack "page.goto"
     | _ => false)

/-- The fixed priority order of the classifier (unknown is the default,
not a tested entry). -/
def priorityOrder : List ErrorKind :=
  [.network, .rate_limit, .server_error, .bot_detection, .navigation,
   .parsing, .client_error]

/-- Spec-side classifier: first kind in priority order whose keyword set
matches, defaulting to unknown. -/
def classifySpec (e : JsError) : ErrorKind :=
  (priorityOrder.find? (fun k => kindMatches k (toLowerCase e.message) (toLowerCase e.stack))).getD .unknown

/-- RetryHandler.shouldRetry: the per-kind retry eligibility table. -/
def shouldRetry (errorType : ErrorKind) (attempt : Nat) : Bool :=
  match errorType with
  | .network | .server_error | .navigation => true
  | .rate_limit => attempt < 2
  | .bot_detection => attempt < 1
  | .parsing => attempt < 2
  | .unknown => attempt < 1
  | .client_error => false

/-- RetryHandler.execute loop body. The JS for-loop runs attempt = 0..maxRetries
and breaks (rethrowing the last error) when attempt === maxRetries; since the
loop counts up from 0, attempt ≤ maxRetries always holds inside the body, so we
carry rem = maxRetries - attempt and rem = 0 is exactly attempt === maxRetries.
On failure below the cap the error is classified and the table consulted;
ineligible kinds rethrow at once, eligible ones sleep and continue. -/
def executeAux (fn : Nat → Except JsError α) : Nat → Nat → Except JsError α
  | attempt, 0 =>
    match fn attempt with
    | .ok r => .ok r
    | .error e => .error e
  | attempt, rem₀ + 1 =>
    match fn attempt with
    | .ok r => .ok r
    | .error e =>
      if shouldRetry (classifyError e) attempt then
        executeAux fn (attempt + 1) rem₀
      else .error e

/-- RetryHandler.execute: run fn with attempt indices 0..maxRetries. -/
def execute (fn : Nat → Except JsError α) (maxRetries : Nat) : Except JsError α :=
  executeAux fn 0 maxRetries

/-- Constructor options of RetryHandler (source defaults: baseDelay 1000,
maxDelay 30000, backoffMultiplier 2, jitter true; ProductScraper overrides
baseDelay to 3000 and maxRetries to 2). -/
structure RetryOptions where
  baseDelay : Nat
  maxDelay : Nat
  backoffMultiplier : Nat
  jitter : Bool
deriving DecidableEq, Repr

/-- Per-kind base delay chosen by the switch at the top of
RetryHandler.calculateDelay. -/
def kindBaseDelay (opts : RetryOptions) : ErrorKind → Nat
  | .rate_limit => 5000
  | .bot_detection => 10000
  | .server_error => 2000
  | .network => 1000
  | .navigation => 1000
  | _ => opts.baseDelay

/-- Exponential backoff capped at maxDelay, before jitter: the source computes
delay = kindBase * backoffMultiplier ^ attempt and then Math.min with maxDelay.
These values are integers small enough that JS float arithmetic is exact. -/
def preJitterDelay (opts : RetryOptions) (attempt : Nat) (k : ErrorKind) : Nat :=
  min (kindBaseDelay opts k * opts.backoffMultiplier ^ attempt) opts.maxDelay

/-- RetryHandler.calculateDelay: after the cap, when jitter is enabled the
source adds Math.random() * jitterAmount * 2 - jitterAmount, where
jitterAmount = delay * 0.1, and returns Math.floor of the result. The
Math.random() draw is the parameter rand ∈ [0, 1). -/
def calculateDelay (opts : RetryOptions) (attempt : Nat) (k : ErrorKind) (rand : ℚ) : ℤ :=
  let d : ℚ := (preJitterDelay opts attempt k : Nat)
  if opts.jitter then
    let jitterAmount := d * (1 / 10)
    Int.floor (d + (rand * jitterAmount * 2 - jitterAmount))
  else
    Int.floor d

end RetryHandler

/-- Browser families of the escalation pool, in the order of
BrowserManager.browserOrder = [safari, firefox, chrome]. -/
inductive BrowserFamily where
  | safari
  | firefox
  | chrome
deriving DecidableEq, Repr

namespace BrowserManager

/-- BrowserManager.browserOrder. -/
def browserOrder : List BrowserFamily := [.safari, .firefox, .chrome]

/-- BrowserManager.getBrowserType: index the order list at
min(attempt, length - 1); the index is always in bounds, the getD default is
never used. -/
def getBrowserType (attempt : Nat) : BrowserFamily :=
  browserOrder.getD (min attempt (browserOrder.length - 1)) .safari

/-- Outcome of one engine's browser.close() call. -/
def closeOk : Except String Unit → Bool
  | .ok _ => true
  | .error _ => false

/-- BrowserManager.closeAll: the source first pushes browser.close() for every
entry of the browsers map into closingPromises (so every close call is
initiated before any is awaited), then awaits Promise.all, and clears the map
only if the await did not reject. The map is modelled as an association list
from family to that engine's close outcome; the result is (families whose
close was invoked, overall success, map contents afterwards). -/
def closeAll (browsers : List (BrowserFamily × Except String Unit)) :
    List BrowserFamily × Bool × List (BrowserFamily × Except String Unit) :=
  let invoked := browsers.map (fun b => b.1)
  let success := browsers.all (fun b => closeOk b.2)
  (invoked, success, if success then [] else browsers)

end BrowserManager

namespace ProductScraper

/-- ProductScraper._classifyError (scraper.js): the four-branch classifier used
only for the persisted attempt record. The source returns the strings
'network', 'bot_detection', 'parsing', 'navigation', 'unknown'; they are
rendered with the shared ErrorKind constructors. -/
def scraperClassify (message : String) : ErrorKind :=
  let msg := toLowerCase message
  if includes msg "timeout" || includes msg "network" || includes msg "connection" then
    .network
  else if includes msg "blocked" || includes msg "access denied" || includes msg "403" then
    .bot_detection
  else if includes msg "incomplete product data" || includes msg "missing title or price" then
    .parsing
  else if includes msg "navigation" || includes msg "page.goto" then
    .navigation
  else
    .unknown

/-- The fixed diagnostic thrown by _scrapeProductAttempt when validation finds
a missing title or price. -/
def incompleteMsg : String :=
  "Incomplete product data - missing title or price, may indicate site blocking or selector issues"

/-- Lowercased pattern of the boilerplate-stripping regex
/This item is not available.*$/i applied to the raw title. -/
def unavailablePat : List Char := "this item is not available".toList

/-- Truncate at the first case-insensitive occurrence of unavailablePat
(the regex consumes from the match to the end of the string). -/
def cutUnavailable : List Char → List Char
  | [] => []
  | c :: rest =>
    if unavailablePat.isPrefixOf ((c :: rest).map Char.toLower) then []
    else c :: cutUnavailable rest

/-- Title post-processing inside page.evaluate:
title.replace(/This item is not available.*$/i, then trim. -/
def processTitle (t : String) : String :=
  String.mk (trimChars (cutUnavailable t.toList))

/-- Character class [\d,] of the price regex. -/
def isDigitOrComma (c : Char) : Bool := c.isDigit || c == ','

/-- Greedy continuation of the price regex from a position where [\d,]
matches: [\d,]+ then an optional dot followed by \d*. -/
def matchTokenFrom (s : List Char) : List Char :=
  let run1 := s.takeWhile isDigitOrComma
  match s.dropWhile isDigitOrComma with
  | '.' :: rest => run1 ++ '.' :: rest.takeWhile Char.isDigit
  | _ => run1

/-- First match of /[\d,]+\.?\d*/ in the raw price string, scanning left to
right as String.prototype.match does. -/
def priceMatch : List Char → Option (List Char)
  | [] => none
  | c :: rest =>
    if isDigitOrComma c then some (matchTokenFrom (c :: rest))
    else priceMatch rest

/-- JS numbers produced by the price cleanup: parseFloat of the matched token
can be an actual number or NaN, and a failed match leaves null. -/
inductive CleanPrice where
  | null
  | nan
  | num (q : ℚ)
deriving DecidableEq, Repr

/-- Decimal value of a digit run. -/
def digitsToNat (s : List Char) : Nat :=
  s.foldl (fun a c => 10 * a + (c.toNat - 48)) 0

/-- JS parseFloat applied to the matched token with commas removed: the input
is digits, an optional dot, then digits; parseFloat is NaN when no digit is
present at all (inputs such as the empty string or a bare dot). The value
intPart + fracPart / 10 ^ length is built as a single exact rational. -/
def parseFloatTok (s : List Char) : CleanPrice :=
  let intPart := s.takeWhile Char.isDigit
  let fracPart :=
    match s.dropWhile Char.isDigit with
    | '.' :: r => r.takeWhile Char.isDigit
    | _ => []
  if intPart.isEmpty && fracPart.isEmpty then .nan
  else
    .num (mkRat (digitsToNat intPart * 10 ^ fracPart.length + digitsToNat fracPart)
      (10 ^ fracPart.length))

/-- Price cleanup of _scrapeProductAttempt:
priceMatch ? parseFloat(match[0].replace(/,/g, reduced)) : null. -/
def cleanPriceOf (raw : String) : CleanPrice :=
  match priceMatch raw.toList with
  | none => .null
  | some tok => parseFloatTok (tok.filter (fun c => c ≠ ','))

/-- Net observable outcome of one top-level attempt of _scrapeProductAttempt:
either some stage threw (navigation, block-page check, extraction — inner
navigation and extraction retries are folded into the attempt's net outcome),
or page.evaluate returned raw title and price candidates (null when no
selector or fallback matched; the title is the already stripped-and-trimmed
value computed inside evaluate, reproduced here by processTitle). -/
inductive AttemptOutcome where
  | thrown (e : JsError)
  | extracted (title : Option String) (price : Option String)

/-- Result object of a successful scrapeProduct call (retailerId and
scrapedAt carry no verified content and are omitted). -/
structure ProductResult where
  title : String
  price : CleanPrice
  url : String
deriving DecidableEq, Repr

/-- One row passed to database.recordScrapeAttempt (response time and
retailer id omitted; they carry no verified content). -/
structure AttemptRecord where
  url : String
  success : Bool
  errorMessage : Option String
  errorType : Option ErrorKind
  browserUsed : Option BrowserFamily
deriving DecidableEq, Repr

/-- ProductScraper._scrapeProductAttempt for attempt index n, given the
attempt's net outcome: pick the browser family, run the page, validate that
both title and price are present and non-empty (JS truthiness on strings),
throw the fixed incompleteMsg otherwise, clean the price, and on success
persist a success record carrying the browser family. -/
def attempt (url : String) (trace : Nat → AttemptOutcome) (n : Nat) :
    Except JsError (ProductResult × AttemptRecord) :=
  match trace n with
  | .thrown e => .error e
  | .extracted rawTitle rawPrice =>
    match rawTitle.map processTitle, rawPrice with
    | some t, some p =>
      if t = "" || p = "" then .error { message := incompleteMsg, stack := "" }
      else
        .ok ({ title := t, price := cleanPriceOf p, url := url },
             { url := url, success := true, errorMessage := none, errorType := none,
               browserUsed := some (BrowserManager.getBrowserType n) })
    | _, _ => .error { message := incompleteMsg, stack := "" }

/-- Observable effects of one logical scrapeProduct call: the returned value,
the recordScrapeAttempt rows persisted, and the updateSelectorStats calls
issued (selector type paired with the success flag passed). -/
structure RunOut where
  result : Option ProductResult
  records : List AttemptRecord
  statUpdates : List (String × Bool)
deriving DecidableEq, Repr

/-- ProductScraper.scrapeProduct: when retailer resolution fails the catch
block sees retailerConfig = null, records nothing and returns null; otherwise
the retry engine drives attempts, and either the succeeding attempt's record
plus the two updateSelectorStats calls are issued and the product returned, or
the rethrown last error is caught, one failure record (browser_used null,
error_type from _classifyError) is persisted, and null is returned. -/
def scrapeProduct (maxRetries : Nat) (retailerFound : Bool) (url : String)
    (trace : Nat → AttemptOutcome) : RunOut :=
  if retailerFound then
    match RetryHandler.execute (attempt url trace) maxRetries with
    | .ok (r, rec) =>
      { result := some r, records := [rec],
        statUpdates := [("price", true), ("title", true)] }
    | .error e =>
      { result := none,
        records := [{ url := url, success := false, errorMessage := some e.message,
                      errorType := some (scraperClassify e.message), browserUsed := none }],
        statUpdates := [] }
  else
    { result := none, records := [], statUpdates := [] }

end ProductScraper

/-- Input URL string as new URL(url) sees it: either it parses (with the
hostname the parser extracted) or the constructor throws. -/
inductive UrlInput where
  | valid (hostname : String) (full : String)
  | invalid (full : String)

/-- The raw URL string. -/
def UrlInput.raw : UrlInput → String
  | .valid _ f => f
  | .invalid f => f

/-- Retailer profile row as detectRetailer hands it on (selector lists are
loaded afterwards by loadRetailerConfig and are not needed for C10). -/
structure RetailerProfile where
  id : Nat
  name : String
  domain : String
deriving DecidableEq, Repr

/-- Persistence collaborator for retailer resolution, under the assumption
that lookups succeed (no query throws): getRetailerByDomain and the
pattern-match query of findRetailerByPattern, each returning a row or null.
findRetailerByPattern also swallows its own query errors into null. -/
structure RetailerStore where
  byDomain : String → Option RetailerProfile
  byPattern : String → Option RetailerProfile

namespace RetailerManager

/-- RetailerManager.extractDomain: hostname with one leading www. stripped and
lowercased; the catch branch for an unparseable URL returns the literal
domain string of the source. -/
def extractDomain : UrlInput → String
  | .valid host _ =>
    toLowerCase (String.mk
      (if "www.".toList.isPrefixOf host.toList then host.toList.drop 4 else host.toList))
  | .invalid _ => "unknown"

/-- RetailerManager.detectRetailer, with the in-memory cache modelled as the
partial map of its still-fresh entries: cache hit, then exact domain match,
then URL-pattern match, then the generic fallback, throwing only when even
the generic profile is missing. -/
def detectRetailer (store : RetailerStore) (cache : String → Option RetailerProfile)
    (url : UrlInput) : Except String RetailerProfile :=
  let domain := extractDomain url
  match cache domain with
  | some r => .ok r
  | none =>
    match store.byDomain domain with
    | some r => .ok r
    | none =>
      match store.byPattern url.raw with
      | some r => .ok r
      | none =>
        match store.byDomain "generic" with
        | some r => .ok r
        | none => .error "No retailer configuration found, including generic fallback"

end RetailerManager

/-! Helper lemmas shared by several claims. -/

/-- Unfolding equation of the retry loop body. -/
theorem executeAux_eq {α : Type} (fn : Nat → Except JsError α) (n rem : Nat) :
    RetryHandler.executeAux fn n rem =
      match fn n with
      | .ok r => .ok r
      | .error e =>
        match rem with
        | 0 => .error e
        | rem₀ + 1 =>
          if RetryHandler.shouldRetry (RetryHandler.classifyError e) n then
            RetryHandler.executeAux fn (n + 1) rem₀
          else .error e := by
  cases rem <;> rfl

/-- A successful retry loop got its value from some invocation of fn. -/
theorem executeAux_ok_exists {α : Type} (fn : Nat → Except JsError α) :
    ∀ (rem n : Nat) (v : α), RetryHandler.executeAux fn n rem = .ok v → ∃ k, fn k = .ok v := by
  intro rem
  induction rem with
  | zero =>
    intro n v h
    rw [executeAux_eq] at h
    cases hf : fn n with
    | ok r => rw [hf] at h; exact ⟨n, by simp_all⟩
    | error e => rw [hf] at h; simp at h
  | succ rem₀ ih =>
    intro n v h
    rw [executeAux_eq] at h
    cases hf : fn n with
    | ok r => rw [hf] at h; exact ⟨n, by simp_all⟩
    | error e =>
      rw [hf] at h
      by_cases hs : RetryHandler.shouldRetry (RetryHandler.classifyError e) n = true
      · simp only [hs, if_true] at h
        exact ih (n + 1) v h
      · simp only [Bool.not_eq_true] at hs
        simp [hs] at h

/-- Shape of a successful attempt: the validated title is non-empty and the
persisted record is a success row carrying the attempt's browser family. -/
theorem attempt_ok_shape (url : String) (trace : Nat → ProductScraper.AttemptOutcome) (n : Nat)
    (r : ProductScraper.ProductResult) (rec : ProductScraper.AttemptRecord) :
    ProductScraper.attempt url trace n = .ok (r, rec) →
    r.title ≠ "" ∧ rec.success = true ∧ rec.errorType = none ∧
      rec.browserUsed = some (BrowserManager.getBrowserType n) := by
  intro h
  unfold ProductScraper.attempt at h
  split at h
  · exact absurd h (by simp)
  · split at h
    · split at h
      · exact absurd h (by simp)
      · rename_i hcond
        simp at hcond
        simp only [Except.ok.injEq, Prod.mk.injEq] at h
        obtain ⟨h1, h2⟩ := h
        subst h1; subst h2
        exact ⟨hcond.1, rfl, rfl, rfl⟩
    · exact absurd h (by simp)

/-! Claim theorems. -/

/-- C3: the error classifier is total and deterministic — it is a function
into the eight-constructor ErrorKind and cannot throw — and it equals the
spec's first-match scan of the fixed keyword sets in the priority order
network, rate_limit, server_error, bot_detection, navigation, parsing,
client_error, defaulting to unknown when nothing matches. -/
theorem classifyError_eq_firstMatch :
    ∀ e : JsError, RetryHandler.classifyError e = RetryHandler.classifySpec e := by
  intro e
  simp only [RetryHandler.classifyError, RetryHandler.classifySpec, RetryHandler.priorityOrder,
    List.find?, RetryHandler.kindMatches, RetryHandler.kindKeywords, List.any, Bool.or_false,
    Bool.or_assoc]
  repeat' split <;> try (first | rfl | simp_all)

/-- C2: the retry table of shouldRetry is exactly the fixed per-kind table;
a client_error-classified first failure is rethrown by execute regardless of
maxRetries; and when the attempt index reaches maxRetries (remaining budget 0)
or the kind is ineligible, the last error is rethrown. -/
theorem execute_retry_table :
    (∀ n, RetryHandler.shouldRetry .network n = true ∧
      RetryHandler.shouldRetry .server_error n = true ∧
      RetryHandler.shouldRetry .navigation n = true ∧
      RetryHandler.shouldRetry .rate_limit n = decide (n < 2) ∧
      RetryHandler.shouldRetry .parsing n = decide (n < 2) ∧
      RetryHandler.shouldRetry .bot_detection n = decide (n < 1) ∧
      RetryHandler.shouldRetry .unknown n = decide (n < 1) ∧
      RetryHandler.shouldRetry .client_error n = false) ∧
    (∀ (α : Type) (fn : Nat → Except JsError α) (m : Nat) (e : JsError),
      fn 0 = .error e → RetryHandler.classifyError e = .client_error →
      RetryHandler.execute fn m = .error e) ∧
    (∀ (α : Type) (fn : Nat → Except JsError α) (n : Nat) (e : JsError),
      fn n = .error e → RetryHandler.executeAux fn n 0 = .error e) ∧
    (∀ (α : Type) (fn : Nat → Except JsError α) (n rem : Nat) (e : JsError),
      fn n = .error e → RetryHandler.shouldRetry (RetryHandler.classifyError e) n = false →
      RetryHandler.executeAux fn n rem = .error e) := by
  refine ⟨fun n => ⟨rfl, rfl, rfl, rfl, rfl, rfl, rfl, rfl⟩, ?_, ?_, ?_⟩
  · intro α fn m e h hc
    cases m with
    | zero => simp [RetryHandler.execute, RetryHandler.executeAux, h]
    | succ m₀ =>
      simp [RetryHandler.execute, RetryHandler.executeAux, h, hc, RetryHandler.shouldRetry]
  · intro α fn n e h
    simp [RetryHandler.executeAux, h]
  · intro α fn n rem e h hs
    cases rem with
    | zero => simp [RetryHandler.executeAux, h]
    | succ rem₀ => simp [RetryHandler.executeAux, h, hs]

/-- Witness for C2: a message containing 404 classifies as client_error and is
rethrown by execute on the first failure even with maxRetries = 5. -/
theorem execute_retry_table_witness :
    RetryHandler.execute
      (fun _ => (Except.error { message := "HTTP 404 Not Found", stack := "" } : Except JsError Nat)) 5 =
      .error { message := "HTTP 404 Not Found", stack := "" } :=
  execute_retry_table.2.1 Nat _ 5 _ rfl (by decide)

/-- C8: getBrowserType is total on attempt indices; below the pool size it is
plain indexing into the order [safari, firefox, chrome], and from index 3 on
it returns the last family, chrome. -/
theorem getBrowserType_total :
    (∀ n, n < 3 → BrowserManager.getBrowserType n = BrowserManager.browserOrder.getD n .safari) ∧
    (∀ n, 3 ≤ n → BrowserManager.getBrowserType n = .chrome) := by
  constructor
  · intro n h
    interval_cases n <;> rfl
  · intro n h
    unfold BrowserManager.getBrowserType
    have h2 : min n (BrowserManager.browserOrder.length - 1) = 2 := by
      simp only [BrowserManager.browserOrder, List.length]
      omega
    rw [h2]
    rfl

/-- Witness for C8: attempt 1 runs firefox, attempt 7 reuses chrome. -/
theorem getBrowserType_total_witness :
    BrowserManager.getBrowserType 1 = BrowserManager.browserOrder.getD 1 .safari ∧
    BrowserManager.getBrowserType 7 = .chrome :=
  ⟨getBrowserType_total.1 1 (by decide), getBrowserType_total.2 7 (by decide)⟩

/-- C9: closeAll initiates browser.close() on every engine of the map before
awaiting any of them, so the set of engines whose close is performed is the
whole map regardless of per-engine close failures (no launched handle is left
without a close call), and the awaited Promise.all succeeds exactly when every
individual close succeeded. -/
theorem closeAll_closes_every_engine :
    ∀ bs : List (BrowserFamily × Except String Unit),
      (BrowserManager.closeAll bs).1 = bs.map Prod.fst ∧
      ((BrowserManager.closeAll bs).2.1 = true ↔ ∀ b ∈ bs, BrowserManager.closeOk b.2 = true) := by
  intro bs
  exact ⟨rfl, by simp [BrowserManager.closeAll]⟩

/-- C10: assuming persistence lookups succeed, retailer resolution never
throws as long as the generic profile exists — for every input URL, including
unparseable ones, which reduce to the domain literal of the source's catch
branch — and a resolution error implies the generic profile is missing. -/
theorem detectRetailer_ok_of_generic :
    (∀ (store : RetailerStore) (cache : String → Option RetailerProfile)
       (url : UrlInput) (g : RetailerProfile),
      store.byDomain "generic" = some g →
      (RetailerManager.detectRetailer store cache url).isOk = true) ∧
    (∀ (store : RetailerStore) (cache : String → Option RetailerProfile)
       (url : UrlInput) (m : String),
      RetailerManager.detectRetailer store cache url = .error m →
      store.byDomain "generic" = none) ∧
    (∀ s, RetailerManager.extractDomain (.invalid s) = "unknown") := by
  refine ⟨?_, ?_, fun s => rfl⟩
  · intro store cache url g hg
    cases hc : cache (RetailerManager.extractDomain url) <;>
      cases hd : store.byDomain (RetailerManager.extractDomain url) <;>
        cases hp : store.byPattern url.raw <;>
          simp [RetailerManager.detectRetailer, hc, hd, hp, hg, Except.isOk, Except.toBool]
  · intro store cache url m h
    cases hc : cache (RetailerManager.extractDomain url) <;>
      cases hd : store.byDomain (RetailerManager.extractDomain url) <;>
        cases hp : store.byPattern url.raw <;>
          cases hgen : store.byDomain "generic" <;>
            simp_all [RetailerManager.detectRetailer]

/-- Witness for C10: a store holding only the generic profile resolves an
unparseable URL without throwing. -/
theorem detectRetailer_ok_of_generic_witness :
    (RetailerManager.detectRetailer
      ⟨fun d => if d = "generic" then some ⟨1, "Generic", "generic"⟩ else none, fun _ => none⟩
      (fun _ => none) (.invalid "not a url")).isOk = true :=
  detectRetailer_ok_of_generic.1 _ _ _ ⟨1, "Generic", "generic"⟩ (by decide)

/-- C4 (amended): a null title or null price makes the attempt fail with the
fixed diagnostic message; the scraper's persistence classifier labels that
message parsing, but the retry handler's classifier — the one that decides the
retry budget — labels the same message unknown, not parsing. -/
theorem incomplete_data_classification :
    (∀ (url : String) (trace : Nat → ProductScraper.AttemptOutcome) (n : Nat) (p : Option String),
      trace n = .extracted none p →
      ProductScraper.attempt url trace n =
        .error { message := ProductScraper.incompleteMsg, stack := "" }) ∧
    (∀ (url : String) (trace : Nat → ProductScraper.AttemptOutcome) (n : Nat) (t : Option String),
      trace n = .extracted t none →
      ProductScraper.attempt url trace n =
        .error { message := ProductScraper.incompleteMsg, stack := "" }) ∧
    ProductScraper.scraperClassify ProductScraper.incompleteMsg = .parsing ∧
    RetryHandler.classifyError { message := ProductScraper.incompleteMsg, stack := "" } = .unknown := by
  refine ⟨?_, ?_, by decide, by decide⟩
  · intro url trace n p h
    unfold ProductScraper.attempt
    rw [h]
    rfl
  · intro url trace n t h
    unfold ProductScraper.attempt
    rw [h]
    cases t <;> rfl

/-- Counterexample for C4 as stated: classifying the exact missing-data
diagnostic through the Error Classifier that drives the retry decision does
not yield parsing. -/
theorem incomplete_data_not_parsing_counterexample :
    RetryHandler.classifyError { message := ProductScraper.incompleteMsg, stack := "" } ≠
      ErrorKind.parsing := by
  decide

/-- Witness for C4: an extraction that found a price but no title fails with
the fixed diagnostic. -/
theorem incomplete_data_classification_witness :
    ProductScraper.attempt "u" (fun _ => .extracted none (some "$5")) 0 =
      .error { message := ProductScraper.incompleteMsg, stack := "" } :=
  incomplete_data_classification.1 "u" _ 0 (some "$5") rfl

/-- C7 (amended): updateSelectorStats is called exactly on the success path —
once for the price group and once for the title group, both with success=true —
and not at all on the failure/exhaustion path. -/
theorem selector_stats_update_paths :
    ∀ (m : Nat) (url : String) (trace : Nat → ProductScraper.AttemptOutcome),
      (∀ r rec, RetryHandler.execute (ProductScraper.attempt url trace) m = .ok (r, rec) →
        (ProductScraper.scrapeProduct m true url trace).statUpdates =
          [("price", true), ("title", true)]) ∧
      (∀ e, RetryHandler.execute (ProductScraper.attempt url trace) m = .error e →
        (ProductScraper.scrapeProduct m true url trace).statUpdates = []) := by
  intro m url trace
  constructor
  · intro r rec h
    simp [ProductScraper.scrapeProduct, h]
  · intro e h
    simp [ProductScraper.scrapeProduct, h]

/-- Counterexample for C7 as stated: a logical scrape call that exhausts all
its retries issues no selector-counter update at all, although the claim says
counters are updated on failure paths as well. -/
theorem selector_stats_no_update_on_failure :
    (ProductScraper.scrapeProduct 2 true "u"
      (fun _ => .thrown { message := "Navigation timeout of 15000ms exceeded", stack := "" })).result
        = none ∧
    (ProductScraper.scrapeProduct 2 true "u"
      (fun _ => .thrown { message := "Navigation timeout of 15000ms exceeded", stack := "" })).statUpdates
        = [] := by
  constructor <;> decide

/-- Witness for C7: a first-attempt success issues exactly the two
success-flagged updates. -/
theorem selector_stats_update_paths_witness :
    (ProductScraper.scrapeProduct 0 true "u"
      (fun _ => .extracted (some "T") (some "$5"))).statUpdates =
      [("price", true), ("title", true)] :=
  (selector_stats_update_paths 0 "u" _).1
    ⟨"T", .num 5, "u"⟩
    ⟨"u", true, none, none, some .safari⟩
    (by decide)

/-- C6: every record handed to recordScrapeAttempt satisfies the persisted
invariant — a success row always carries a browser family, and error_type is
non-null exactly on failure rows. -/
theorem scrape_attempt_record_invariant :
    ∀ (m : Nat) (found : Bool) (url : String) (trace : Nat → ProductScraper.AttemptOutcome)
      (rec : ProductScraper.AttemptRecord),
      rec ∈ (ProductScraper.scrapeProduct m found url trace).records →
      (rec.success = true → rec.browserUsed ≠ none) ∧
      (rec.errorType ≠ none ↔ rec.success = false) := by
  intro m found url trace rec hmem
  unfold ProductScraper.scrapeProduct at hmem
  cases found with
  | false => simp at hmem
  | true =>
    cases h : RetryHandler.execute (ProductScraper.attempt url trace) m with
    | ok v =>
      rw [h] at hmem
      obtain ⟨r, rec₀⟩ := v
      simp at hmem
      subst hmem
      have h2 : RetryHandler.executeAux (ProductScraper.attempt url trace) 0 m = .ok (r, rec) := h
      obtain ⟨k, hk⟩ := executeAux_ok_exists _ m 0 (r, rec) h2
      obtain ⟨ht, hs, he, hb⟩ := attempt_ok_shape url trace k r rec hk
      refine ⟨fun _ => by simp [hb], ?_, ?_⟩
      · intro hne
        exact absurd he hne
      · intro hf
        rw [hs] at hf
        exact absurd hf (by simp)
    | error e =>
      rw [h] at hmem
      simp at hmem
      subst hmem
      exact ⟨fun hsucc => by simp at hsucc, by simp⟩

/-- Witness for C6: the failure record of an exhausted scrape satisfies the
invariant. -/
theorem scrape_attempt_record_invariant_witness :
    ((⟨"u", false, some "x", some ErrorKind.unknown, none⟩ :
        ProductScraper.AttemptRecord).success = true →
      (⟨"u", false, some "x", some ErrorKind.unknown, none⟩ :
        ProductScraper.AttemptRecord).browserUsed ≠ none) ∧
    ((⟨"u", false, some "x", some ErrorKind.unknown, none⟩ :
        ProductScraper.AttemptRecord).errorType ≠ none ↔
      (⟨"u", false, some "x", some ErrorKind.unknown, none⟩ :
        ProductScraper.AttemptRecord).success = false) :=
  scrape_attempt_record_invariant 0 true "u" (fun _ => .thrown ⟨"x", ""⟩)
    ⟨"u", false, some "x", some ErrorKind.unknown, none⟩ (by decide)

/-- C1 (amended): scrapeProduct returns null exactly when the retry engine
rethrows (exhaustion or a non-retryable error) — no exception reaches the
caller, scrapeProduct is a total function — and every non-null result carries
a non-empty title; the cleaned price, however, may be null. -/
theorem scrapeProduct_result_spec :
    ∀ (m : Nat) (url : String) (trace : Nat → ProductScraper.AttemptOutcome),
      ((ProductScraper.scrapeProduct m true url trace).result = none ↔
        (RetryHandler.execute (ProductScraper.attempt url trace) m).isOk = false) ∧
      (∀ r, (ProductScraper.scrapeProduct m true url trace).result = some r → r.title ≠ "") := by
  intro m url trace
  cases h : RetryHandler.execute (ProductScraper.attempt url trace) m with
  | ok v =>
    obtain ⟨r₀, rec₀⟩ := v
    constructor
    · simp [ProductScraper.scrapeProduct, h, Except.isOk, Except.toBool]
    · intro r hr
      simp [ProductScraper.scrapeProduct, h] at hr
      subst hr
      have h2 : RetryHandler.executeAux (ProductScraper.attempt url trace) 0 m = .ok (r₀, rec₀) := h
      obtain ⟨k, hk⟩ := executeAux_ok_exists _ m 0 (r₀, rec₀) h2
      exact (attempt_ok_shape url trace k r₀ rec₀ hk).1
  | error e =>
    constructor
    · simp [ProductScraper.scrapeProduct, h, Except.isOk, Except.toBool]
    · intro r hr
      simp [ProductScraper.scrapeProduct, h] at hr

/-- Counterexample for C1 as stated: a page whose matched price text carries
no numeric token yields a non-null result whose price is null — the claimed
guarantee of a non-null numeric price fails. -/
theorem scrapeProduct_nonnull_price_counterexample :
    (ProductScraper.scrapeProduct 2 true "u"
      (fun _ => .extracted (some "Widget Pro") (some "Call for price"))).result =
      some { title := "Widget Pro", price := ProductScraper.CleanPrice.null, url := "u" } := by
  decide

/-- Witness for C1: a successful scrape returns a record with a non-empty
title. -/
theorem scrapeProduct_result_spec_witness :
    ({ title := "T", price := ProductScraper.cleanPriceOf "$5", url := "u" } :
      ProductScraper.ProductResult).title ≠ "" :=
  (scrapeProduct_result_spec 0 "u" (fun _ => .extracted (some "T") (some "$5"))).2
    { title := "T", price := ProductScraper.cleanPriceOf "$5", url := "u" } (by decide)

/-- C5 (amended): the computed delay is floor of min(maxDelay, kindBase ×
multiplier^n) scaled by the symmetric ±10% jitter factor 1 + (2·rand − 1)/10;
the pre-jitter delay is monotone in n and capped at maxDelay, the jittered
delay is monotone in n for a fixed random draw and bounded by 1.1 × maxDelay
— the jitter is applied after the cap, so the result may exceed maxDelay —
and with jitter disabled the delay is the capped pre-jitter value. -/
theorem calculateDelay_spec :
    ∀ (opts : RetryHandler.RetryOptions) (n : Nat) (k : ErrorKind) (r : ℚ),
      1 ≤ opts.backoffMultiplier → 0 ≤ r → r < 1 →
      (RetryHandler.preJitterDelay opts n k ≤ RetryHandler.preJitterDelay opts (n + 1) k ∧
        RetryHandler.preJitterDelay opts n k ≤ opts.maxDelay) ∧
      RetryHandler.calculateDelay opts n k r ≤ RetryHandler.calculateDelay opts (n + 1) k r ∧
      (RetryHandler.calculateDelay opts n k r : ℚ) ≤ 11 * (opts.maxDelay : ℚ) / 10 ∧
      (opts.jitter = true →
        RetryHandler.calculateDelay opts n k r =
          Int.floor ((RetryHandler.preJitterDelay opts n k : ℚ) * (1 + (2 * r - 1) / 10))) ∧
      (opts.jitter = false →
        RetryHandler.calculateDelay opts n k r = RetryHandler.preJitterDelay opts n k) := by
  intro opts n k r hm hr0 hr1
  have hpre_mono : RetryHandler.preJitterDelay opts n k ≤ RetryHandler.preJitterDelay opts (n + 1) k := by
    unfold RetryHandler.preJitterDelay
    refine min_le_min ?_ le_rfl
    exact Nat.mul_le_mul_left _ (Nat.pow_le_pow_right hm (Nat.le_succ n))
  have hpre_max : RetryHandler.preJitterDelay opts n k ≤ opts.maxDelay := min_le_right _ _
  have hab : (RetryHandler.preJitterDelay opts n k : ℚ) ≤
      (RetryHandler.preJitterDelay opts (n + 1) k : ℚ) := by exact_mod_cast hpre_mono
  have ha0 : (0 : ℚ) ≤ (RetryHandler.preJitterDelay opts n k : ℚ) := by positivity
  have hamax : (RetryHandler.preJitterDelay opts n k : ℚ) ≤ (opts.maxDelay : ℚ) := by
    exact_mod_cast hpre_max
  set a : ℚ := (RetryHandler.preJitterDelay opts n k : ℚ) with ha
  set b : ℚ := (RetryHandler.preJitterDelay opts (n + 1) k : ℚ) with hb
  have key : ∀ x : ℚ, x + (r * (x * (1 / 10)) * 2 - x * (1 / 10)) = x * (1 + (2 * r - 1) / 10) := by
    intro x; ring
  refine ⟨⟨hpre_mono, hpre_max⟩, ?_, ?_, ?_, ?_⟩
  · cases hj : opts.jitter with
    | false =>
      simp only [RetryHandler.calculateDelay, hj, if_false, Bool.false_eq_true]
      exact Int.floor_le_floor (by exact_mod_cast hpre_mono)
    | true =>
      simp only [RetryHandler.calculateDelay, hj, if_true]
      apply Int.floor_le_floor
      rw [key a, key b]
      have hf : (0 : ℚ) ≤ 1 + (2 * r - 1) / 10 := by linarith
      exact mul_le_mul_of_nonneg_right hab hf
  · cases hj : opts.jitter with
    | false =>
      simp only [RetryHandler.calculateDelay, hj, if_false, Bool.false_eq_true]
      have h1 : ((Int.floor a : ℤ) : ℚ) ≤ a := Int.floor_le a
      have h2 : (opts.maxDelay : ℚ) ≤ 11 * (opts.maxDelay : ℚ) / 10 := by
        have : (0 : ℚ) ≤ (opts.maxDelay : ℚ) := by positivity
        linarith
      calc ((Int.floor a : ℤ) : ℚ) ≤ a := h1
        _ ≤ (opts.maxDelay : ℚ) := hamax
        _ ≤ 11 * (opts.maxDelay : ℚ) / 10 := h2
    | true =>
      simp only [RetryHandler.calculateDelay, hj, if_true]
      have h1 : ((Int.floor (a + (r * (a * (1 / 10)) * 2 - a * (1 / 10))) : ℤ) : ℚ) ≤
          a + (r * (a * (1 / 10)) * 2 - a * (1 / 10)) := Int.floor_le _
      have h2 : a + (r * (a * (1 / 10)) * 2 - a * (1 / 10)) ≤ 11 * (opts.maxDelay : ℚ) / 10 := by
        rw [key a]
        have hf1 : 1 + (2 * r - 1) / 10 ≤ 11 / 10 := by linarith
        have hmax0 : (0 : ℚ) ≤ (opts.maxDelay : ℚ) := by positivity
        nlinarith
      linarith
  · intro hj
    simp only [RetryHandler.calculateDelay, hj, if_true]
    rw [key a]
  · intro hj
    simp only [RetryHandler.calculateDelay, hj, if_false, Bool.false_eq_true]
    exact Int.floor_natCast _

/-- Counterexample for C5 as stated: with the scraper's configuration
(baseDelay 3000, maxDelay 30000, multiplier 2, jitter on), a bot_detection
failure at attempt 2 with random draw 99/100 yields delay 32940, strictly
above the configured max delay of 30000 — the jitter is added after the cap. -/
theorem calculateDelay_exceeds_maxDelay :
    RetryHandler.calculateDelay ⟨3000, 30000, 2, true⟩ 2 ErrorKind.bot_detection (99 / 100) = 32940 ∧
    (30000 : ℤ) < 32940 := by
  constructor
  · unfold RetryHandler.calculateDelay RetryHandler.preJitterDelay RetryHandler.kindBaseDelay
    have h : ((min (10000 * 2 ^ 2) 30000 : ℕ) : ℚ) +
        ((99 / 100 : ℚ) * (((min (10000 * 2 ^ 2) 30000 : ℕ) : ℚ) * (1 / 10)) * 2 -
          ((min (10000 * 2 ^ 2) 30000 : ℕ) : ℚ) * (1 / 10)) = ((32940 : ℤ) : ℚ) := by
      norm_num
    simp only [if_true]
    rw [h, Int.floor_intCast]
  · norm_num

/-- Witness for C5: the amended properties instantiated at the default
options, attempt 0, kind network, random draw 1/2. -/
theorem calculateDelay_spec_witness :
    (RetryHandler.preJitterDelay ⟨1000, 30000, 2, true⟩ 0 .network ≤
        RetryHandler.preJitterDelay ⟨1000, 30000, 2, true⟩ (0 + 1) .network ∧
      RetryHandler.preJitterDelay ⟨1000, 30000, 2, true⟩ 0 .network ≤
        (⟨1000, 30000, 2, true⟩ : RetryHandler.RetryOptions).maxDelay) ∧
    RetryHandler.calculateDelay ⟨1000, 30000, 2, true⟩ 0 .network (1 / 2) ≤
      RetryHandler.calculateDelay ⟨1000, 30000, 2, true⟩ (0 + 1) .network (1 / 2) ∧
    (RetryHandler.calculateDelay ⟨1000, 30000, 2, true⟩ 0 .network (1 / 2) : ℚ) ≤
      11 * ((⟨1000, 30000, 2, true⟩ : RetryHandler.RetryOptions).maxDelay : ℚ) / 10 ∧
    ((⟨1000, 30000, 2, true⟩ : RetryHandler.RetryOptions).jitter = true →
      RetryHandler.calculateDelay ⟨1000, 30000, 2, true⟩ 0 .network (1 / 2) =
        Int.floor ((RetryHandler.preJitterDelay ⟨1000, 30000, 2, true⟩ 0 .network : ℚ) *
          (1 + (2 * (1 / 2 : ℚ) - 1) / 10))) ∧
    ((⟨1000, 30000, 2, true⟩ : RetryHandler.RetryOptions).jitter = false →
      RetryHandler.calculateDelay ⟨1000, 30000, 2, true⟩ 0 .network (1 / 2) =
        RetryHandler.preJitterDelay ⟨1000, 30000, 2, true⟩ 0 .network) :=
  calculateDelay_spec ⟨1000, 30000, 2, true⟩ 0 .network (1 / 2)
    (by norm_num) (by norm_num) (by norm_num)

/-- Witness for C3: the two classifiers agree on a concrete navigation
timeout message. -/
theorem classifyError_eq_firstMatch_witness :
    RetryHandler.classifyError { message := "Navigation timeout of 15000ms exceeded", stack := "" } =
      RetryHandler.classifySpec { message := "Navigation timeout of 15000ms exceeded", stack := "" } :=
  classifyError_eq_firstMatch { message := "Navigation timeout of 15000ms exceeded", stack := "" }

/-- Witness for C9: with one failing close among two launched engines, both
engines still get their close call. -/
theorem closeAll_closes_every_engine_witness :
    (BrowserManager.closeAll [(.safari, .ok ()), (.firefox, .error "close failed")]).1 =
      [BrowserFamily.safari, BrowserFamily.firefox] :=
  (closeAll_closes_every_engine [(.safari, .ok ()), (.firefox, .error "close failed")]).1
